import Mathlib

/-!
# Verification of the Agri-AI prediction-interpretation layer

Shallow embedding of the repository's core logic:

* `src/utils/domain.ts` — health interpretation, disease extraction,
  confidence formatting and the 0.55 display floor;
* `src/utils/metadata.ts` — label normalization, lookup maps, the global
  trained-crop whitelist (`initTrainedCrops` / `isKnownCrop` /
  `hasTrainedCropMetadata`);
* `src/components`/`src/unnamed/part_014`, `part_015` — the result
  renderer's decision logic (unsupported / healthy / diseased /
  incomplete states);
* `src/unnamed/part_012` — the transport layer (`checkHealth`,
  `analyzeImage` retry loop) and `src/unnamed/part_003`
  (`mapApiErrorToMessage`).

Numbers are embedded as `ℚ` (the cited constants are exactly
representable), strings as Lean `String`, JS `null`/`undefined` as
`Option`, and the axios/zod control flow as explicit case analysis.
-/

namespace AgriAI

/-! ## String helpers (JS `toLowerCase`, regex replaces, `includes`) -/

/-- JS `String.prototype.toLowerCase` restricted to ASCII, which covers all
label strings produced by the backend contract. -/
def jsToLower (s : String) : String :=
  String.mk (s.data.map Char.toLower)

/-- A character matched by the regex class `[\s_-]` used in
`normalizeKey` (`src/utils/metadata.ts`). -/
def isSepChar (c : Char) : Bool :=
  c = ' ' || c = '\t' || c = '\n' || c = '\r' || c = '_' || c = '-'

/-- Replace every maximal run of `[\s_-]+` characters by a single `'_'`,
i.e. the global regex replace in `normalizeKey`. -/
def collapseSeps : List Char → List Char
  | [] => []
  | [c] => [if isSepChar c then '_' else c]
  | c1 :: c2 :: rest =>
    if isSepChar c1 && isSepChar c2 then collapseSeps (c2 :: rest)
    else (if isSepChar c1 then '_' else c1) :: collapseSeps (c2 :: rest)

/-- JS `String.prototype.includes` (substring test), used by the retry
loop's check for the model-loading error message. -/
def containsSubstr (s pat : String) : Bool :=
  (List.range (s.length + 1)).any (fun i => pat.data.isPrefixOf (s.data.drop i))

/-- JS character class `\w` (`[A-Za-z0-9_]`), used by `formatLabel`'s
`\b\w` capitalization regex. -/
def isWordChar (c : Char) : Bool :=
  c.isAlphanum || c = '_'

/-- Capitalize every word-initial character, i.e. the
`replace(/\b\w/g, c => c.toUpperCase())` step of `formatLabel`.
`prevIsWord` records whether the previous character was a `\w` character
(so that `\b` holds exactly when it was not). -/
def capitalizeWordStarts : Bool → List Char → List Char
  | _, [] => []
  | prevIsWord, c :: rest =>
    (if isWordChar c && !prevIsWord then c.toUpper else c)
      :: capitalizeWordStarts (isWordChar c) rest

/-! ## `src/types.ts` — validated response shapes

Two contract variants appear in the repository:

* variant 1 (`types.ts` lines 29-48): `health` is a
  label/confidence pair and `disease` is nullable *and* optional;
* variant 2 (`types.ts` lines 93-112): `health` is a
  status/probability pair (`z.enum(["diseased","healthy","non_crop"])`)
  and `disease` is nullable but required.

Both are embedded; `getActiveDisease` consumes variant 1 and the
`part_015` renderer consumes variant 2. -/

/-- `PredictionConfidenceSchema`: `{ label, confidence ∈ [0,1], class_id? }`. -/
structure PredictionConfidence where
  label : String
  confidence : ℚ
  class_id : Option String := none
  deriving DecidableEq

/-- Variant-1 `PredictResponse` (`health` as label/confidence; `disease`
nullable and optional).  `disease = none` models the key being absent
(`undefined`), `disease = some none` models an explicit `null`. -/
structure PredictResponseV1 where
  health : PredictionConfidence
  crop : PredictionConfidence
  disease : Option (Option PredictionConfidence) := none
  processing_time_ms : Option ℚ := none
  deriving DecidableEq

/-- `HealthPredictionSchema`'s closed `status` enum. -/
inductive HealthStatus where
  | diseased
  | healthy
  | non_crop
  deriving DecidableEq

/-- Variant-2 `health` field: `{ status, probability ∈ [0,1] }`. -/
structure HealthPrediction where
  status : HealthStatus
  probability : ℚ
  deriving DecidableEq

/-- Variant-2 `PredictResponse` (`disease` nullable but required:
`some d` is a disease object, `none` is the JSON `null`). -/
structure PredictResponse2 where
  health : HealthPrediction
  crop : PredictionConfidence
  disease : Option PredictionConfidence
  processing_time_ms : Option ℚ := none
  deriving DecidableEq

/-- `SemanticClassSchema`: `{ id, label, description? }`. -/
structure SemanticClass where
  id : String
  label : String
  description : Option String := none
  deriving DecidableEq

/-- `MetadataResponseSchema`: the three named collections. -/
structure MetadataResponse where
  crops : List SemanticClass
  diseases : List SemanticClass
  health_statuses : List SemanticClass
  deriving DecidableEq

/-- The zod check `z.number().min(0).max(1)` on a confidence value:
validation either returns the value unmodified or fails; it never
clamps. -/
def zodConfidenceCheck (c : ℚ) : Except String ℚ :=
  if 0 ≤ c ∧ c ≤ 1 then Except.ok c else Except.error "confidence out of range"

/-! ## `src/utils/domain.ts` -/

/-- `const NEGATIVE_CLASS_LABEL = 'healthy'`. -/
def NEGATIVE_CLASS_LABEL : String := "healthy"

/-- `export const UI_MIN_CROP_CONFIDENCE = 0.55`. -/
def UI_MIN_CROP_CONFIDENCE : ℚ := 55/100

/-- `isPlantHealthy`: case-insensitive comparison of the health label
against the negative class. -/
def isPlantHealthy (healthLabel : String) : Bool :=
  jsToLower healthLabel = NEGATIVE_CLASS_LABEL

/-- `getActiveDisease`: returns `null` when the plant is healthy, and
otherwise `data.disease || null` (so JS `undefined` and `null` both
become `null`, and a disease object passes through unchanged). -/
def getActiveDisease (data : PredictResponseV1) : Option PredictionConfidence :=
  if isPlantHealthy data.health.label then none
  else
    match data.disease with
    | some (some d) => some d
    | _ => none

/-- JS `Math.round`: round half toward positive infinity.
(`Rat.floor` is the computable floor on `ℚ`; `Rat.floor_def` identifies
it with the mathematical `⌊·⌋`.) -/
def jsRound (x : ℚ) : ℤ := (x + 1/2).floor

/-- The numeric part of `formatConfidence`:
`Math.round(Math.max(0, Math.min(1, value)) * 100)`. -/
def formatConfidence (value : ℚ) : ℤ :=
  jsRound (max 0 (min 1 value) * 100)

/-- The full `formatConfidence` output string (percentage). -/
def formatConfidenceStr (value : ℚ) : String :=
  toString (formatConfidence value) ++ "%"

/-- `formatLabel`: underscores to spaces, lower-case, then capitalize
each word start (`\b\w`). -/
def formatLabel (label : String) : String :=
  String.mk (capitalizeWordStarts false
    ((jsToLower (String.mk (label.data.map (fun c => if c = '_' then ' ' else c)))).data))

/-! ## `src/utils/metadata.ts` (variant 1, the one with the global
trained-crop whitelist) -/

/-- `CropMetadata` (`{ label, displayName?, description? }`). -/
structure CropMetadata where
  label : String
  displayName : Option String := none
  description : Option String := none
  deriving DecidableEq

/-- The module-level `trainedCrops: Set<string> | null` state, passed
explicitly.  A `List String` with membership up to duplicates models the
JS `Set`. -/
abbrev TrainedCrops := Option (List String)

/-- `initTrainedCrops`: stores `label.toLowerCase()` for each crop
(note: *not* `normalizeKey`), or `null` when given `null`. -/
def initTrainedCrops (crops : Option (List CropMetadata)) : TrainedCrops :=
  crops.map (fun cs => cs.map (fun c => jsToLower c.label))

/-- `hasTrainedCropMetadata`: `trainedCrops !== null && trainedCrops.size > 0`. -/
def hasTrainedCropMetadata (trainedCrops : TrainedCrops) : Bool :=
  match trainedCrops with
  | none => false
  | some s => !s.isEmpty

/-- `normalizeKey`: `label.toLowerCase().replace(/[\s_-]+/g, '_')`. -/
def normalizeKey (label : String) : String :=
  String.mk (collapseSeps (jsToLower label).data)

/-- `DisplayInfo` (`{ displayName, description? }`). -/
structure DisplayInfo where
  displayName : String
  description : Option String := none
  deriving DecidableEq

/-- A JS `Map` built by successive `set` calls, kept as the list of
insertions in order; reads take the *last* binding for a key. -/
abbrev LookupMap := List (String × DisplayInfo)

/-- `Map.prototype.get` for a `LookupMap`: last write wins. -/
def mapGet (m : LookupMap) (k : String) : Option DisplayInfo :=
  (m.reverse.find? (fun p => p.1 = k)).map (·.2)

/-- `Map.prototype.has` for a `LookupMap`. -/
def mapHas (m : LookupMap) (k : String) : Bool :=
  (m.find? (fun p => p.1 = k)).isSome

/-- `buildLookupMap`: key `normalizeKey(item.label)`, value
`{ displayName: formatLabel(item.label), description: item.description }`. -/
def buildLookupMap (items : List SemanticClass) : LookupMap :=
  items.map (fun item =>
    (normalizeKey item.label,
     { displayName := formatLabel item.label, description := item.description }))

/-- The `MetadataLookup` class state: the three lookup maps. -/
structure MetadataLookup where
  cropMap : LookupMap
  diseaseMap : LookupMap
  healthMap : LookupMap
  deriving DecidableEq

/-- The `MetadataLookup` constructor / `createMetadataLookup` (maps are
empty when `metadata` is `null`).  The constructor's side effect on the
global whitelist is modelled separately via `initTrainedCrops`. -/
def createMetadataLookup (metadata : Option MetadataResponse) : MetadataLookup :=
  match metadata with
  | none => { cropMap := [], diseaseMap := [], healthMap := [] }
  | some md =>
    { cropMap := buildLookupMap md.crops
      diseaseMap := buildLookupMap md.diseases
      healthMap := buildLookupMap md.health_statuses }

/-- `MetadataLookup.getCropInfo`: map lookup with `formatLabel` fallback. -/
def MetadataLookup.getCropInfo (self : MetadataLookup) (label : String) : DisplayInfo :=
  (mapGet self.cropMap (normalizeKey label)).getD { displayName := formatLabel label }

/-- `MetadataLookup.getDiseaseInfo`. -/
def MetadataLookup.getDiseaseInfo (self : MetadataLookup) (label : String) : DisplayInfo :=
  (mapGet self.diseaseMap (normalizeKey label)).getD { displayName := formatLabel label }

/-- The `MetadataLookup.isKnownCrop` *method*: `cropMap.has(normalizeKey(label))`. -/
def MetadataLookup.isKnownCrop (self : MetadataLookup) (label : String) : Bool :=
  mapHas self.cropMap (normalizeKey label)

/-- The *standalone* `isKnownCrop` (`src/utils/metadata.ts` lines
152-169): `!label || !trainedCrops` short-circuits to `false` (JS
falsiness: `null`, `undefined` and the empty string are falsy, an empty
`Set` is truthy), then membership of `label.toLowerCase()` in the global
set — deliberately *not* `normalizeKey`, per the code's own comments. -/
def isKnownCrop (label : Option String) (trainedCrops : TrainedCrops) : Bool :=
  match label with
  | none => false
  | some l =>
    if l.isEmpty then false
    else
      match trainedCrops with
      | none => false
      | some s => s.contains (jsToLower l)

/-! ## `src/unnamed/part_014` — the result renderer's two-stage guard

`AnalysisResult` (part_014, lines 79-110) computes, from the validated
variant-1 response and the global whitelist state:

```
const metadataReady = hasTrainedCropMetadata();
const isTrained = metadataReady ? isKnownCrop(cropLabel) : true;
const hasEnoughConfidence = cropConfidence >= UI_MIN_CROP_CONFIDENCE;
const isUnsupportedImage = (!isTrained && metadataReady) || !hasEnoughConfidence;
const isAmbiguousPrediction = cropConfidence < 0.98;
```
-/

/-- `isUnsupportedImage` from part_014: the hard-block guard. -/
def isUnsupportedImage (trainedCrops : TrainedCrops) (result : PredictResponseV1) : Bool :=
  let cropLabel := some result.crop.label
  let cropConfidence := result.crop.confidence
  let metadataReady := hasTrainedCropMetadata trainedCrops
  let isTrained := if metadataReady then isKnownCrop cropLabel trainedCrops else true
  let hasEnoughConfidence : Bool := UI_MIN_CROP_CONFIDENCE ≤ cropConfidence
  ((!isTrained) && metadataReady) || (!hasEnoughConfidence)

/-- The two unsupported reasons of the spec's decision outcome. -/
inductive UnsupportedReason where
  | domainMismatch
  | lowConfidence
  deriving DecidableEq

/-- The unsupported-image guard with the blocking disjunct reified: JS
`||` evaluates left to right, and the source's own comments order the
checks ("CHECK 2: Primary Domain Gate", "CHECK 3: Secondary Confidence
Gate"), so a block is attributed to the domain gate exactly when the
left disjunct `(!isTrained && metadataReady)` holds.  `none` means the
prediction is not blocked. -/
def unsupportedReason (trainedCrops : TrainedCrops) (result : PredictResponseV1) :
    Option UnsupportedReason :=
  let cropLabel := some result.crop.label
  let cropConfidence := result.crop.confidence
  let metadataReady := hasTrainedCropMetadata trainedCrops
  let isTrained := if metadataReady then isKnownCrop cropLabel trainedCrops else true
  let hasEnoughConfidence : Bool := UI_MIN_CROP_CONFIDENCE ≤ cropConfidence
  if (!isTrained) && metadataReady then some UnsupportedReason.domainMismatch
  else if !hasEnoughConfidence then some UnsupportedReason.lowConfidence
  else none

/-- `isAmbiguousPrediction` from part_014 (advisory disclaimer band). -/
def isAmbiguousPrediction (result : PredictResponseV1) : Bool :=
  result.crop.confidence < mkRat 98 100

/-! ## `src/unnamed/part_015` — the variant-2 renderer's terminal states

The component returns one of four mutually exclusive renders, in source
order:

1. `result.crop.label === "NON_CROP"` — the unsupported ("No plant
   detected") state;
2. `result.health.status === 'healthy'` — the healthy state;
3. `result.health.status === 'diseased' && result.disease` — the
   diseased state (reads `result.disease.label` and
   `result.disease.confidence`);
4. otherwise — the incomplete state ("The server response was
   incomplete."), which renders no disease section.
-/

/-- The terminal states of the part_015 renderer.  `diseasedView`
carries the disease payload the disease section renders from; the other
states render no disease data. -/
inductive Outcome15 where
  | nonCropView
  | healthyView
  | diseasedView (disease : PredictionConfidence)
  | incompleteView
  deriving DecidableEq

/-- Whether an outcome is the diseased state. -/
def Outcome15.isDiseasedView : Outcome15 → Bool
  | .diseasedView _ => true
  | _ => false

/-- The part_015 `AnalysisResult` decision logic, in source order. -/
def analysisResult (result : PredictResponse2) : Outcome15 :=
  if result.crop.label = "NON_CROP" then Outcome15.nonCropView
  else if result.health.status = HealthStatus.healthy then Outcome15.healthyView
  else
    match result.disease with
    | some d =>
      if result.health.status = HealthStatus.diseased then Outcome15.diseasedView d
      else Outcome15.incompleteView
    | none => Outcome15.incompleteView

/-! ## `src/unnamed/part_012` — transport layer (third variant, the one
with the health probe states and the retry loop)

The axios option `validateStatus: (status) => status < 500` resolves the
request promise exactly when the predicate is true and rejects it (with
the response attached) otherwise.  The loop body and the `catch` block
are embedded as explicit case analysis; `setTimeout(..., 2000)` pauses
are recorded in a delay trace.
-/

/-- Body of an HTTP response as the classify/parse layer sees it:
either it parses against `PredictResponseSchema`, or it does not (error
bodies like `{ detail: string }`, carried for `normalizeError`). -/
inductive RespBody where
  | valid (r : PredictResponse2)
  | invalid (detail : Option String)
  deriving DecidableEq

/-- `error.response?.data?.detail` for a response body. -/
def RespBody.detail : RespBody → Option String
  | .valid _ => none
  | .invalid d => d

/-- What the server does on one attempt: no HTTP response at all
(network failure or timeout, with the axios error message), or a
response with a status code and body. -/
inductive AttemptOutcome where
  | netErr (message : String)
  | httpResponse (status : Nat) (body : RespBody)
  deriving DecidableEq

/-- The error value `analyzeImage` ends with, after `normalizeError`:

* `httpErr message status?` — an axios error normalized to
  `new Error(message)` with the response status attached (`message` is
  `detail || error.message || "Network error occurred"`);
* `zodErr` — a `ZodError` from `PredictResponseSchema.parse`, returned
  unchanged by `normalizeError` (its message is the zod issue dump and
  never contains "Model is still loading");
* `plainErr message` — any other `Error` passed through unchanged. -/
inductive NormalizedError where
  | httpErr (message : String) (status : Option Nat)
  | zodErr
  | plainErr (message : String)
  deriving DecidableEq

/-- Result of a full `analyzeImage` call: the parsed response or the
error finally thrown, together with how many attempts were made and the
trace of `setTimeout` pauses (in milliseconds). -/
inductive AnalyzeOutcome where
  | ok (r : PredictResponse2) (attempts : Nat) (delaysMs : List Nat)
  | err (e : NormalizedError) (attempts : Nat) (delaysMs : List Nat)
  deriving DecidableEq

/-- Attempt count of an `analyzeImage` outcome. -/
def AnalyzeOutcome.attempts : AnalyzeOutcome → Nat
  | .ok _ n _ => n
  | .err _ n _ => n

/-- `const maxRetries = 3`. -/
def maxRetries : Nat := 3

/-- The default axios message for a rejected response status. -/
def axiosStatusMessage (status : Nat) : String :=
  "Request failed with status code " ++ toString status

/-- The terminal message of the (dead) 503 branch. -/
def modelLoadingMessage : String := "Model is still loading. Please wait and try again."

/-- One iteration of the `for (let attempt = 1; attempt <= maxRetries;
attempt++)` loop of `analyzeImage`, continued on the remaining fuel.
`fuel` counts the loop iterations still permitted (`maxRetries -
attempt + 1` at every call), so the recursion is structural.

Control flow mirrors the source exactly:

* `validateStatus: status < 500` — a response with status ≥ 500 makes
  axios reject, landing in the `catch` block;
* a resolved response first hits `if (response.status === 503)` (dead,
  since 503 is not < 500, but kept for fidelity), then
  `PredictResponseSchema.parse`;
* the `catch` block stores `normalizeError(error)` in `lastError` and —
  whether or not the retry condition holds — falls through to the next
  loop iteration; the condition `attempt < maxRetries &&
  !error.message.includes('Model is still loading')` only governs the
  2-second `setTimeout` (and the log line);
* when the loop ends, `throw lastError || new Error("Failed to analyze
  image after retries")`. -/
def analyzeLoop (server : Nat → AttemptOutcome) :
    Nat → Nat → Option NormalizedError → List Nat → AnalyzeOutcome
  | 0, attempt, lastError, delays =>
    AnalyzeOutcome.err
      (lastError.getD (NormalizedError.plainErr "Failed to analyze image after retries"))
      (attempt - 1) delays
  | fuel + 1, attempt, lastError, delays =>
    match server attempt with
    | AttemptOutcome.netErr m =>
      -- axios rejects with no response: message = error.message (or the
      -- generic fallback when empty), no status attached
      let msg := if m.isEmpty then "Network error occurred" else m
      let e := NormalizedError.httpErr msg none
      if attempt < maxRetries && !(containsSubstr m "Model is still loading") then
        analyzeLoop server fuel (attempt + 1) (some e) (delays ++ [2000])
      else if attempt < maxRetries then
        analyzeLoop server fuel (attempt + 1) (some e) delays
      else AnalyzeOutcome.err e attempt delays
    | AttemptOutcome.httpResponse status body =>
      if status < 500 then
        -- validateStatus accepts: promise resolves
        if status = 503 then
          -- dead code: unreachable under status < 500, kept from the source
          -- (this `continue` branch does not touch lastError)
          if attempt < maxRetries then
            analyzeLoop server fuel (attempt + 1) lastError (delays ++ [2000])
          else
            -- `throw new Error(modelLoadingMessage)` is caught by the
            -- enclosing catch; the retry condition is false, and the
            -- loop is at its last iteration
            AnalyzeOutcome.err (NormalizedError.plainErr modelLoadingMessage) attempt delays
        else
          match body with
          | RespBody.valid r => AnalyzeOutcome.ok r attempt delays
          | RespBody.invalid _ =>
            -- PredictResponseSchema.parse throws a ZodError
            let e := NormalizedError.zodErr
            if attempt < maxRetries then
              analyzeLoop server fuel (attempt + 1) (some e) (delays ++ [2000])
            else AnalyzeOutcome.err e attempt delays
      else
        -- validateStatus rejects: axios error with the response attached
        let msg := (body.detail).getD (axiosStatusMessage status)
        let e := NormalizedError.httpErr msg (some status)
        if attempt < maxRetries && !(containsSubstr (axiosStatusMessage status) "Model is still loading") then
          analyzeLoop server fuel (attempt + 1) (some e) (delays ++ [2000])
        else if attempt < maxRetries then
          analyzeLoop server fuel (attempt + 1) (some e) delays
        else AnalyzeOutcome.err e attempt delays

/-- `analyzeImage` (part_012, lines 259-305).  `baseConfigured` models
`API_BASE_URL` being non-empty; `server` gives the outcome of each
numbered attempt. -/
def analyzeImage (baseConfigured : Bool) (server : Nat → AttemptOutcome) : AnalyzeOutcome :=
  if baseConfigured then analyzeLoop server maxRetries 1 none []
  else AnalyzeOutcome.err (NormalizedError.plainErr "Backend URL not configured") 0 []

/-! ## `checkHealth` (part_012, lines 213-239) -/

/-- The `HealthResponse.status` union `'ok' | 'loading' | 'offline'`. -/
inductive ProbeState where
  | ok
  | loading
  | offline
  deriving DecidableEq

/-- `HealthResponse { status, ready }`. -/
structure HealthResponse where
  status : ProbeState
  ready : Bool
  deriving DecidableEq

/-- `checkHealth`: GET `/health` with `validateStatus: (status) =>
status < 500`; a rejected promise (no response, or status ≥ 500) lands
in the `catch` and reports offline. -/
def checkHealth (baseConfigured : Bool) (probe : AttemptOutcome) : HealthResponse :=
  if !baseConfigured then { status := ProbeState.offline, ready := false }
  else
    match probe with
    | AttemptOutcome.netErr _ => { status := ProbeState.offline, ready := false }
    | AttemptOutcome.httpResponse status _ =>
      if status < 500 then
        if status = 200 then { status := ProbeState.ok, ready := true }
        else if status = 503 then { status := ProbeState.loading, ready := false }
        else { status := ProbeState.offline, ready := false }
      else { status := ProbeState.offline, ready := false }

/-! ## `src/unnamed/part_003` — `mapApiErrorToMessage` -/

/-- `ErrorSeverity`. -/
inductive ErrorSeverity where
  | error
  | warning
  | info
  deriving DecidableEq

/-- `UserFriendlyError { message, severity, action? }`. -/
structure UserFriendlyError where
  message : String
  severity : ErrorSeverity
  action : Option String := none
  deriving DecidableEq

/-- The `unknown` error value handed to `mapApiErrorToMessage`: an axios
error (with or without a response status, and with its `message`), a
plain `Error`, or a non-`Error` value. -/
inductive CaughtError where
  | axiosErr (status : Option Nat) (message : String)
  | plainErr (message : String)
  | nonError
  deriving DecidableEq

/-- `mapApiErrorToMessage` (part_003): network/5xx/413/429 get dedicated
messages; everything else falls through to the generic fallback. -/
def mapApiErrorToMessage (e : CaughtError) : UserFriendlyError :=
  match e with
  | CaughtError.axiosErr none _ =>
    { message := "Unable to connect to the server. Please check your internet connection."
      severity := ErrorSeverity.warning
      action := some "Retry" }
  | CaughtError.axiosErr (some status) message =>
    if 500 ≤ status then
      { message := "The AgriScan service is currently experiencing high load. Please try again in a moment."
        severity := ErrorSeverity.error
        action := some "Retry" }
    else if status = 413 then
      { message := "The image file is too large. Please use an image smaller than 10MB."
        severity := ErrorSeverity.warning }
    else if status = 429 then
      { message := "You're sending requests too quickly. Please wait a moment."
        severity := ErrorSeverity.warning }
    else
      { message := message, severity := ErrorSeverity.error }
  | CaughtError.plainErr message =>
    { message := message, severity := ErrorSeverity.error }
  | CaughtError.nonError =>
    { message := "An unexpected error occurred.", severity := ErrorSeverity.error }

/-! ## Concrete fixtures used by witnesses and counterexamples -/

/-- A whitelist built from a single trained crop `"Tomato"`. -/
def tcTomato : TrainedCrops := initTrainedCrops (some [{ label := "Tomato" }])

/-- A validated variant-1 prediction for an untrained crop whose
confidence is also below the 0.55 floor. -/
def rRose : PredictResponseV1 :=
  { crop := { label := "rose", confidence := mkRat 3 10 }
    health := { label := "diseased", confidence := mkRat 9 10 }
    disease := some none }

/-- A disease payload fixture. -/
def dBlight : PredictionConfidence := { label := "late_blight", confidence := mkRat 8 10 }

/-- Variant-1 prediction: mixed-case healthy label with a (contract
violating) non-null disease payload. -/
def dataHealthyCaps : PredictResponseV1 :=
  { crop := { label := "tomato", confidence := mkRat 99 100 }
    health := { label := "HeAlThy", confidence := mkRat 95 100 }
    disease := some (some dBlight) }

/-- Variant-1 prediction: not healthy, disease object present. -/
def dataDiseased : PredictResponseV1 :=
  { crop := { label := "tomato", confidence := mkRat 99 100 }
    health := { label := "Diseased", confidence := mkRat 9 10 }
    disease := some (some dBlight) }

/-- Variant-1 prediction: not healthy, disease key present but `null`. -/
def dataDiseasedNull : PredictResponseV1 :=
  { crop := { label := "tomato", confidence := mkRat 99 100 }
    health := { label := "Diseased", confidence := mkRat 9 10 }
    disease := some none }

/-- Variant-2 prediction: healthy status with a non-null disease. -/
def rHealthyWithDisease : PredictResponse2 :=
  { crop := { label := "Tomato", confidence := mkRat 99 100 }
    health := { status := HealthStatus.healthy, probability := mkRat 95 100 }
    disease := some dBlight }

/-- Variant-2 prediction: the NON_CROP sentinel with diseased status and
a null disease. -/
def rNonCropDiseased : PredictResponse2 :=
  { crop := { label := "NON_CROP", confidence := mkRat 9 10 }
    health := { status := HealthStatus.diseased, probability := mkRat 9 10 }
    disease := none }

/-- Variant-2 prediction: ordinary crop, diseased status, null disease. -/
def rTomatoDiseasedNull : PredictResponse2 :=
  { crop := { label := "Tomato", confidence := mkRat 99 100 }
    health := { status := HealthStatus.diseased, probability := mkRat 9 10 }
    disease := none }

/-- A valid parse result used as the 200-response body in retry runs. -/
def rParsed : PredictResponse2 :=
  { crop := { label := "Tomato", confidence := mkRat 99 100 }
    health := { status := HealthStatus.healthy, probability := mkRat 95 100 }
    disease := none }

/-- Server that answers 503, 503, then 200 with a valid body. -/
def srv503TwiceThen200 (r : PredictResponse2) : Nat → AttemptOutcome := fun n =>
  if n ≤ 2 then AttemptOutcome.httpResponse 503 (RespBody.invalid none)
  else AttemptOutcome.httpResponse 200 (RespBody.valid r)

/-- Server that answers 503 on every attempt. -/
def srvAlways503 : Nat → AttemptOutcome := fun _ =>
  AttemptOutcome.httpResponse 503 (RespBody.invalid none)

/-- Server that answers 500 once, then 200 with a valid body. -/
def srv500Then200 (r : PredictResponse2) : Nat → AttemptOutcome := fun n =>
  if n = 1 then AttemptOutcome.httpResponse 500 (RespBody.invalid none)
  else AttemptOutcome.httpResponse 200 (RespBody.valid r)

/-- Server that answers 413 on every attempt. -/
def srvAlways413 (d : Option String) : Nat → AttemptOutcome := fun _ =>
  AttemptOutcome.httpResponse 413 (RespBody.invalid d)

/-- Server that answers 429 on every attempt. -/
def srvAlways429 (d : Option String) : Nat → AttemptOutcome := fun _ =>
  AttemptOutcome.httpResponse 429 (RespBody.invalid d)

/-- The "Bell_Pepper" metadata catalog of the round-trip claim. -/
def mdBellPepper : MetadataResponse :=
  { crops := [{ id := "1", label := "Bell_Pepper" }]
    diseases := []
    health_statuses := [] }

/-- Registry built from the Bell_Pepper catalog. -/
def lkBellPepper : MetadataLookup := createMetadataLookup (some mdBellPepper)

/-- Whitelist built (by the `MetadataLookup` constructor's call to
`initTrainedCrops`) from the Bell_Pepper catalog. -/
def tcBellPepper : TrainedCrops := initTrainedCrops (some [{ label := "Bell_Pepper" }])

/-! ## Claim theorems -/

/-- C1: the part_014 guard evaluates the domain gate strictly before the
confidence gate.  A prediction whose crop label fails the whitelist test
while the whitelist is available is blocked with the domain-mismatch
reason for every confidence value (in particular also below the 0.55
floor), and the low-confidence reason only arises when the domain check
passed (whitelist unavailable, or label trained). -/
theorem domain_gate_precedes_confidence_gate :
    (∀ (tc : TrainedCrops) (r : PredictResponseV1),
      hasTrainedCropMetadata tc = true →
      isKnownCrop (some r.crop.label) tc = false →
      unsupportedReason tc r = some UnsupportedReason.domainMismatch ∧
        isUnsupportedImage tc r = true) ∧
    (∀ (tc : TrainedCrops) (r : PredictResponseV1),
      unsupportedReason tc r = some UnsupportedReason.lowConfidence →
      hasTrainedCropMetadata tc = true →
      isKnownCrop (some r.crop.label) tc = true) := by
  constructor
  · intro tc r hmeta huntrained
    unfold unsupportedReason isUnsupportedImage
    simp only [hmeta, if_true, huntrained]
    simp
  · intro tc r hreason hmeta
    unfold unsupportedReason at hreason
    simp only [hmeta, if_true] at hreason
    by_contra huntrained
    simp only [Bool.not_eq_true] at huntrained
    simp [huntrained] at hreason

/-- C1 witness: with whitelist `{tomato}` available, the untrained crop
`rose` at confidence 0.3 (also below the 0.55 floor) is blocked with the
domain-mismatch reason. -/
theorem domain_gate_precedes_confidence_gate_witness :
    unsupportedReason tcTomato rRose = some UnsupportedReason.domainMismatch ∧
      isUnsupportedImage tcTomato rRose = true :=
  domain_gate_precedes_confidence_gate.1 tcTomato rRose (by decide) (by decide)

/-- C2: a healthy prediction never yields the diseased outcome, whatever
the disease field holds — the part_015 renderer takes the healthy branch
before `result.disease` is inspected, and `getActiveDisease` returns
`null` whenever the (case-insensitively compared) health label is
healthy. -/
theorem healthy_never_diseased :
    (∀ r : PredictResponse2, r.health.status = HealthStatus.healthy →
      (analysisResult r).isDiseasedView = false) ∧
    (∀ data : PredictResponseV1, isPlantHealthy data.health.label = true →
      getActiveDisease data = none) := by
  constructor
  · intro r h
    unfold analysisResult
    rw [h]
    split
    · rfl
    · rfl
  · intro data h
    unfold getActiveDisease
    rw [h]
    simp

/-- C2 witness: a healthy-status prediction carrying a non-null disease
object is not rendered as diseased, and `getActiveDisease` returns
`null` for the mixed-case label `"HeAlThy"` despite a non-null disease
payload. -/
theorem healthy_never_diseased_witness :
    (analysisResult rHealthyWithDisease).isDiseasedView = false ∧
      getActiveDisease dataHealthyCaps = none :=
  ⟨healthy_never_diseased.1 rHealthyWithDisease rfl,
   healthy_never_diseased.2 dataHealthyCaps (by decide)⟩

/-- C3 counterexample: a validated prediction with `health.status =
diseased` and `disease = null` whose crop label is the `"NON_CROP"`
sentinel resolves to the non-crop unsupported state, not to the
incomplete state — so the claim's "the outcome is Incomplete" fails as
universally stated. -/
theorem diseased_null_payload_counterexample :
    rNonCropDiseased.health.status = HealthStatus.diseased ∧
      rNonCropDiseased.disease = none ∧
      analysisResult rNonCropDiseased = Outcome15.nonCropView ∧
      analysisResult rNonCropDiseased ≠ Outcome15.incompleteView := by
  refine ⟨rfl, rfl, rfl, ?_⟩
  decide

/-- C3 amended: a diseased-status prediction with a null disease is
never rendered healthy and never diseased, and — provided its crop label
is not the `"NON_CROP"` sentinel, which is checked first — it resolves
to the distinct incomplete state (which renders no disease section; the
embedding is a total function, so no crash is possible). -/
theorem diseased_null_payload_incomplete :
    ∀ r : PredictResponse2,
      r.health.status = HealthStatus.diseased → r.disease = none →
      analysisResult r ≠ Outcome15.healthyView ∧
        (analysisResult r).isDiseasedView = false ∧
        (r.crop.label ≠ "NON_CROP" → analysisResult r = Outcome15.incompleteView) := by
  intro r hstatus hdisease
  unfold analysisResult
  rw [hstatus, hdisease]
  split
  · exact ⟨by simp, rfl, fun h => absurd (by assumption) h⟩
  · exact ⟨by simp, rfl, fun _ => rfl⟩

/-- C3 witness: an ordinary crop with diseased status and null disease
is rendered as the incomplete state and not as diseased. -/
theorem diseased_null_payload_incomplete_witness :
    analysisResult rTomatoDiseasedNull = Outcome15.incompleteView ∧
      (analysisResult rTomatoDiseasedNull).isDiseasedView = false :=
  ⟨(diseased_null_payload_incomplete rTomatoDiseasedNull rfl rfl).2.2 (by decide),
   (diseased_null_payload_incomplete rTomatoDiseasedNull rfl rfl).2.1⟩

/-- C7: whenever the registry has no whitelist — the trained-crop set is
uninitialized (`null`) or empty — the standalone `isKnownCrop` returns
`false` for every label, including `null`/`undefined` and the empty
string (and, being a total function, never throws). -/
theorem isKnownCrop_false_without_whitelist :
    ∀ (label : Option String) (tc : TrainedCrops),
      hasTrainedCropMetadata tc = false → isKnownCrop label tc = false := by
  intro label tc h
  match label, tc with
  | none, _ => rfl
  | some l, none => simp [isKnownCrop]
  | some l, some s =>
    cases s with
    | nil =>
      unfold isKnownCrop
      split <;> simp [List.contains]
    | cons a as => simp [hasTrainedCropMetadata, List.isEmpty] at h

/-- C7 witness: with an uninitialized whitelist no label is known, and
with an empty whitelist no label is known either. -/
theorem isKnownCrop_false_without_whitelist_witness :
    isKnownCrop (some "tomato") none = false ∧
      isKnownCrop (some "tomato") (initTrainedCrops (some [])) = false ∧
      isKnownCrop none none = false ∧
      isKnownCrop (some "") none = false :=
  ⟨isKnownCrop_false_without_whitelist (some "tomato") none (by decide),
   isKnownCrop_false_without_whitelist (some "tomato") (initTrainedCrops (some [])) (by decide),
   isKnownCrop_false_without_whitelist none none (by decide),
   isKnownCrop_false_without_whitelist (some "") none (by decide)⟩

/-- C8 counterexample: with a registry built from the catalog entry
`"Bell_Pepper"`, the lookup tables resolve the query `"bell pepper"` (the
`MetadataLookup` maps key both through `normalizeKey`), but the
standalone trained-crop membership test — which only lower-cases its
input — does *not*: `isKnownCrop "bell pepper"` is `false` although the
whitelist contains the crop.  The claim's "both the lookup tables and
the trained-crop membership test" is therefore false. -/
theorem bell_pepper_roundtrip_counterexample :
    lkBellPepper.getCropInfo "bell pepper" = lkBellPepper.getCropInfo "Bell_Pepper" ∧
      MetadataLookup.isKnownCrop lkBellPepper "bell pepper" = true ∧
      isKnownCrop (some "Bell_Pepper") tcBellPepper = true ∧
      isKnownCrop (some "bell pepper") tcBellPepper = false := by
  refine ⟨by decide, by decide, by decide, by decide⟩

/-- C8 amended: the lookup tables treat case and separator variants as
the same key (`"bell pepper"` and `"Bell_Pepper"` normalize identically
and resolve to the same registry entry, also through the
`MetadataLookup.isKnownCrop` method), but the standalone whitelist
membership test only tolerates case variation: `"BELL_PEPPER"` is
recognized while `"bell pepper"` is not. -/
theorem bell_pepper_roundtrip :
    normalizeKey "bell pepper" = normalizeKey "Bell_Pepper" ∧
      lkBellPepper.getCropInfo "bell pepper" = { displayName := "Bell Pepper" } ∧
      lkBellPepper.getCropInfo "Bell_Pepper" = { displayName := "Bell Pepper" } ∧
      MetadataLookup.isKnownCrop lkBellPepper "bell pepper" = true ∧
      isKnownCrop (some "BELL_PEPPER") tcBellPepper = true ∧
      isKnownCrop (some "bell pepper") tcBellPepper = false := by
  refine ⟨by decide, by decide, by decide, by decide, by decide, by decide⟩

/-- C10: `getActiveDisease` is total over validated predictions and
yields exactly the disease object or `null`: for every prediction whose
health label is not healthy it returns the disease object when one is
present, and `null` when the field is explicitly `null` or the key is
absent. -/
theorem getActiveDisease_object_or_null :
    ∀ data : PredictResponseV1, isPlantHealthy data.health.label = false →
      (∀ d, data.disease = some (some d) → getActiveDisease data = some d) ∧
        ((data.disease = none ∨ data.disease = some none) → getActiveDisease data = none) := by
  intro data h
  unfold getActiveDisease
  rw [h]
  constructor
  · intro d hd
    rw [hd]
    simp
  · rintro (hd | hd) <;> rw [hd] <;> simp

/-- C10 witness: with a non-healthy label, a present disease object is
returned as-is and an explicit `null` comes back as `null`. -/
theorem getActiveDisease_object_or_null_witness :
    getActiveDisease dataDiseased = some dBlight ∧
      getActiveDisease dataDiseasedNull = none :=
  ⟨(getActiveDisease_object_or_null dataDiseased (by decide)).1 dBlight rfl,
   (getActiveDisease_object_or_null dataDiseasedNull (by decide)).2 (Or.inr rfl)⟩

/-- Helper: the retry loop makes at most `attempt - 1 + fuel` attempts. -/
theorem analyzeLoop_attempts_le (server : Nat → AttemptOutcome) :
    ∀ (fuel attempt : Nat) (lastErr : Option NormalizedError) (ds : List Nat),
      (analyzeLoop server fuel attempt lastErr ds).attempts ≤ attempt - 1 + fuel := by
  intro fuel
  induction fuel with
  | zero =>
    intro attempt lastErr ds
    simp [analyzeLoop, AnalyzeOutcome.attempts]
  | succ n ih =>
    intro attempt lastErr ds
    rw [analyzeLoop]
    cases hs : server attempt with
    | netErr m =>
      dsimp only
      split
      · exact le_trans (ih _ _ _) (by omega)
      · split
        · exact le_trans (ih _ _ _) (by omega)
        · simp [AnalyzeOutcome.attempts]
          omega
    | httpResponse status body =>
      dsimp only
      split
      · split
        · split
          · exact le_trans (ih _ _ _) (by omega)
          · simp [AnalyzeOutcome.attempts]
            omega
        · cases body with
          | valid r =>
            simp [AnalyzeOutcome.attempts]
            omega
          | invalid d =>
            dsimp only
            split
            · exact le_trans (ih _ _ _) (by omega)
            · simp [AnalyzeOutcome.attempts]
              omega
      · split
        · exact le_trans (ih _ _ _) (by omega)
        · split
          · exact le_trans (ih _ _ _) (by omega)
          · simp [AnalyzeOutcome.attempts]
            omega

/-- C4 counterexample: the code does not retry *only* on 503.  A server
answering 500 then 200 gets a second attempt (and succeeds), although
the claim's retry policy would stop after the first non-503 failure;
and after three straight 503s the loop ends with the normalized axios
error for the last 503 response, whose message is not the dedicated
"model still loading" message (that branch is unreachable because
`validateStatus: status < 500` rejects 503). -/
theorem analyzeImage_retry_counterexample :
    analyzeImage true (srv500Then200 rParsed) = AnalyzeOutcome.ok rParsed 2 [2000] ∧
      analyzeImage true srvAlways503 =
        AnalyzeOutcome.err
          (NormalizedError.httpErr "Request failed with status code 503" (some 503)) 3
          [2000, 2000] ∧
      "Request failed with status code 503" ≠ modelLoadingMessage := by
  refine ⟨rfl, rfl, by decide⟩

/-- C4 amended: `analyzeImage` retries after *any* failed attempt
(rejected status, network failure, or invalid body) up to 3 attempts
total with a fixed 2000 ms pause between attempts.  Against 503, 503,
200 it succeeds on the 3rd attempt with the parsed result; against a
server that always answers 503 it stops after the 3rd attempt with the
normalized error of the last 503 response (not the dedicated model
loading message, whose branch is dead code); and no run ever exceeds 3
attempts. -/
theorem analyzeImage_retry_behavior :
    ∀ (r : PredictResponse2) (server : Nat → AttemptOutcome),
      analyzeImage true (srv503TwiceThen200 r) = AnalyzeOutcome.ok r 3 [2000, 2000] ∧
        analyzeImage true srvAlways503 =
          AnalyzeOutcome.err
            (NormalizedError.httpErr "Request failed with status code 503" (some 503)) 3
            [2000, 2000] ∧
        (analyzeImage true server).attempts ≤ maxRetries := by
  intro r server
  refine ⟨rfl, rfl, ?_⟩
  exact le_trans (analyzeLoop_attempts_le server maxRetries 1 none []) (by decide)

/-- C5 counterexample: a 413 response is retried — the call makes 3
attempts, not exactly one, and the error finally thrown is the schema
parse error (the 413 body fails `PredictResponseSchema.parse` because
`validateStatus` accepted the status), not a distinct payload-too-large
error. -/
theorem status_413_retried_counterexample :
    analyzeImage true (srvAlways413 (some "Payload too large")) =
        AnalyzeOutcome.err NormalizedError.zodErr 3 [2000, 2000] ∧
      (analyzeImage true (srvAlways413 (some "Payload too large"))).attempts ≠ 1 := by
  refine ⟨rfl, by decide⟩

/-- C5 amended: 413 and 429 classify responses are accepted by
`validateStatus` (they are < 500), fail schema parsing, and are then
retried like any other failure — 3 attempts with 2000 ms pauses, ending
in the zod parse error.  The distinct payload-too-large and rate-limited
messages exist in `mapApiErrorToMessage`, which produces them only for
an axios error carrying status 413 resp. 429 — an error the classify
retry loop never throws for these statuses. -/
theorem status_413_429_retried_but_mapped :
    ∀ (d : Option String) (m : String),
      analyzeImage true (srvAlways413 d) =
          AnalyzeOutcome.err NormalizedError.zodErr 3 [2000, 2000] ∧
        analyzeImage true (srvAlways429 d) =
          AnalyzeOutcome.err NormalizedError.zodErr 3 [2000, 2000] ∧
        mapApiErrorToMessage (CaughtError.axiosErr (some 413) m) =
          { message := "The image file is too large. Please use an image smaller than 10MB."
            severity := ErrorSeverity.warning } ∧
        mapApiErrorToMessage (CaughtError.axiosErr (some 429) m) =
          { message := "You're sending requests too quickly. Please wait a moment."
            severity := ErrorSeverity.warning } := by
  intro d m
  refine ⟨rfl, rfl, rfl, rfl⟩

/-- C6: evaluating `checkHealth` at the three probe outcomes.  A 503
response is reported as *offline*, not loading: `validateStatus:
(status) => status < 500` rejects 503, so control reaches the `catch`
before the `response.status === 503` branch — contradicting both the
claim and the code's own comments ("Accept both 200 and 503 - don't
reject on 503"). -/
theorem checkHealth_503_reports_offline :
    checkHealth true (AttemptOutcome.httpResponse 503 (RespBody.invalid none)) =
        { status := ProbeState.offline, ready := false } ∧
      checkHealth true (AttemptOutcome.httpResponse 200 (RespBody.invalid none)) =
        { status := ProbeState.ok, ready := true } ∧
      checkHealth true (AttemptOutcome.netErr "Network Error") =
        { status := ProbeState.offline, ready := false } ∧
      ProbeState.offline ≠ ProbeState.loading := by
  refine ⟨rfl, rfl, rfl, by decide⟩

/-- Helper: `Rat.floor` agrees with the mathematical floor on `ℚ`. -/
theorem ratFloor_eq_intFloor (a : ℚ) : a.floor = ⌊a⌋ := by
  rw [Rat.floor_def', Rat.floor_def]

/-- Helper: evaluation rule for `formatConfidence` via the floor
characterization. -/
theorem formatConfidence_eval {v : ℚ} {n : ℤ}
    (h1 : (n : ℚ) ≤ max 0 (min 1 v) * 100 + 1/2)
    (h2 : max 0 (min 1 v) * 100 + 1/2 < (n : ℚ) + 1) :
    formatConfidence v = n := by
  unfold formatConfidence jsRound
  rw [ratFloor_eq_intFloor]
  exact Int.floor_eq_iff.mpr ⟨h1, h2⟩

/-- Helper: the source's clamp `max 0 (min 1 v)` equals the spec's
clamp `min (max v 0) 1`. -/
theorem clamp_comm (v : ℚ) : max 0 (min 1 v) = min (max v 0) 1 := by
  rcases le_total v 0 with h0 | h0 <;> rcases le_total v 1 with h1 | h1 <;>
    simp [min_def, max_def] <;> split_ifs <;> linarith

/-- Modelled from the spec: `clampPercent(v) = round(min(max(v,0),1) *
100)` with round-half-up, stated for comparison with the source's
`formatConfidence`. -/
def clampPercentSpec (v : ℚ) : ℤ := jsRound (min (max v 0) 1 * 100)

/-- C9: the presentation formatter computes exactly the spec's
`clampPercent` formula (round-half-up of the `[0,1]`-clamped value times
100), matching the four cited sample points; and the schema validation
layer never clamps — an in-range confidence passes through unmodified
and an out-of-range one is rejected. -/
theorem clampPercent_formula :
    (∀ v : ℚ, formatConfidence v = clampPercentSpec v) ∧
      formatConfidence (3/2) = 100 ∧
      formatConfidence (-(3/10)) = 0 ∧
      formatConfidence (955/1000) = 96 ∧
      formatConfidence (125/1000) = 13 ∧
      (∀ c : ℚ, 0 ≤ c → c ≤ 1 → zodConfidenceCheck c = Except.ok c) ∧
      (∀ c : ℚ, ¬(0 ≤ c ∧ c ≤ 1) →
        zodConfidenceCheck c = Except.error "confidence out of range") := by
  refine ⟨?_, ?_, ?_, ?_, ?_, ?_, ?_⟩
  · intro v
    unfold formatConfidence clampPercentSpec
    rw [clamp_comm]
  · exact formatConfidence_eval (by norm_num [min_def, max_def]) (by norm_num [min_def, max_def])
  · exact formatConfidence_eval (by norm_num [min_def, max_def]) (by norm_num [min_def, max_def])
  · exact formatConfidence_eval (by norm_num [min_def, max_def]) (by norm_num [min_def, max_def])
  · exact formatConfidence_eval (by norm_num [min_def, max_def]) (by norm_num [min_def, max_def])
  · intro c h1 h2
    unfold zodConfidenceCheck
    rw [if_pos ⟨h1, h2⟩]
  · intro c h
    unfold zodConfidenceCheck
    rw [if_neg h]

/-- C9 witness: an in-range confidence passes validation unmodified and
an out-of-range one is rejected. -/
theorem clampPercent_formula_witness :
    zodConfidenceCheck (mkRat 1 2) = Except.ok (mkRat 1 2) ∧
      zodConfidenceCheck (mkRat 3 2) = Except.error "confidence out of range" :=
  ⟨clampPercent_formula.2.2.2.2.2.1 (mkRat 1 2) (by decide) (by decide),
   clampPercent_formula.2.2.2.2.2.2 (mkRat 3 2) (by decide)⟩

end AgriAI
